import Mathlib

/-!
Verification of the LooterShooter repository core
(`looter_shooter_game.py`, `looter_shooter_dungeon.py`,
`dungeon_integration.py`, `looter_shooter_integration.py`).

The Python code is shallowly embedded: Python `int` becomes `ℤ` (or `ℕ` for
levels and counts that the claims restrict to nonnegative values, with casts
to `ℤ`/`ℚ` wherever Python subtraction could go negative), Python `float`
becomes `ℚ`, and the process-wide `random` stream is modelled by explicit
oracle structures: each call site reads the next value of its own stream
(any combination of draws is realisable, which is exactly the set of
behaviours of the real generator).  `random.random()` draws are `ℚ` values,
`random.randint(a,b)` is modelled as `a + (draw % (b - a + 1))`, and
`random.choice(xs)` as `xs[draw % xs.length]`.
-/

/-- Python `int(x)` on a float: truncation toward zero. -/
def pyInt (q : ℚ) : ℤ := if 0 ≤ q then ⌊q⌋ else ⌈q⌉

theorem pyInt_of_nonneg {q : ℚ} (h : 0 ≤ q) : pyInt q = ⌊q⌋ := by
  simp [pyInt, h]

/-! ## Enumerations (`looter_shooter_game.py`, classes `DamageType`,
`ItemRarity`, `ItemType`, `StatusEffectType`) -/

inductive DamageType
  | physical | fire | ice | lightning | poison | arcane
  deriving DecidableEq, Repr

inductive ItemRarity
  | common | uncommon | rare | epic | legendary
  deriving DecidableEq, Repr

inductive ItemType
  | weapon | armor | potion | scroll
  deriving DecidableEq, Repr

inductive StatusEffectType
  | burn | freeze | poison | stun | slow | heal | shield
  deriving DecidableEq, Repr

/-- `Stats` dataclass: four `int` fields. -/
structure Stats where
  strength : ℤ
  dexterity : ℤ
  intelligence : ℤ
  vitality : ℤ
  deriving DecidableEq, Repr

/-- `StatusEffect` dataclass (`duration` in milliseconds, `value` a float). -/
structure StatusEffect where
  id : String
  type : StatusEffectType
  duration : ℤ
  value : ℚ
  deriving DecidableEq, Repr

/-- `DamageResult` dataclass. -/
structure DamageResult where
  damage : ℤ
  damage_type : DamageType
  is_critical : Bool
  status_effect : Option StatusEffect
  deriving DecidableEq, Repr

/-- Random draws consumed by one call of `CombatSystem.calculate_damage`:
the crit roll, the (at most one) status-effect roll, and the
`random.randint(1000, 9999)` id counter draw. -/
structure CalcRng where
  critRoll : ℚ
  statusRoll : ℚ
  idNum : ℕ
  deriving Repr

/-- `CombatSystem.calculate_damage` (`looter_shooter_game.py` lines 212-277). -/
def calculate_damage (base_damage : ℤ) (damage_type : DamageType)
    (attacker_stats defender_stats : Stats) (crit_chance : ℚ)
    (rng : CalcRng) : DamageResult :=
  let total0 : ℚ := (base_damage : ℚ)
  let total1 : ℚ :=
    if damage_type = .physical then
      total0 + (attacker_stats.strength : ℚ) * (5/10)
    else if damage_type ∈ ([.fire, .ice, .lightning, .arcane] : List DamageType) then
      total0 + (attacker_stats.intelligence : ℚ) * (7/10)
    else total0
  let resistance : ℚ := (defender_stats.vitality : ℚ) * (3/10)
  let total2 : ℚ := max 1 (total1 - resistance)
  let is_critical : Bool := decide (rng.critRoll < crit_chance)
  let total3 : ℚ := if is_critical then total2 * 2 else total2
  let sid : String := "status_" ++ toString (1000 + rng.idNum % 9000)
  let status_effect : Option StatusEffect :=
    if damage_type = .fire ∧ rng.statusRoll < 3/10 then
      some ⟨sid, .burn, 5000, total3 * (1/10)⟩
    else if damage_type = .ice ∧ rng.statusRoll < 4/10 then
      some ⟨sid, .slow, 4000, 5/10⟩
    else if damage_type = .lightning ∧ rng.statusRoll < 2/10 then
      some ⟨sid, .stun, 2000, 0⟩
    else if damage_type = .poison ∧ rng.statusRoll < 5/10 then
      some ⟨sid, .poison, 10000, total3 * (5/100)⟩
    else none
  { damage := pyInt total3
    damage_type := damage_type
    is_critical := is_critical
    status_effect := status_effect }

/-- The pre-crit damage value: base plus the stat bonus of the damage type,
minus the vitality resistance, floored at 1. -/
def preCritDamage (base_damage : ℤ) (damage_type : DamageType)
    (attacker_stats defender_stats : Stats) : ℚ :=
  let bonus : ℚ :=
    if damage_type = .physical then (attacker_stats.strength : ℚ) * (5/10)
    else if damage_type ∈ ([.fire, .ice, .lightning, .arcane] : List DamageType) then
      (attacker_stats.intelligence : ℚ) * (7/10)
    else 0
  max 1 ((base_damage : ℚ) + bonus - (defender_stats.vitality : ℚ) * (3/10))

/-- **C2.** `calculate_damage` adds `strength*0.5` for physical damage,
`intelligence*0.7` for fire/ice/lightning/arcane, nothing for poison;
subtracts `defenderVitality*0.3`, floors the result at a minimum of 1, and a
critical hit (crit roll below `crit_chance`) doubles the damage after that
floor; the returned damage is always at least 1 (never negative). -/
theorem C2_calculate_damage_formula (base_damage : ℤ) (damage_type : DamageType)
    (attacker_stats defender_stats : Stats) (crit_chance : ℚ) (rng : CalcRng) :
    (calculate_damage base_damage damage_type attacker_stats defender_stats
        crit_chance rng).damage =
      (if rng.critRoll < crit_chance then
        ⌊2 * preCritDamage base_damage damage_type attacker_stats defender_stats⌋
      else
        ⌊preCritDamage base_damage damage_type attacker_stats defender_stats⌋) ∧
    1 ≤ (calculate_damage base_damage damage_type attacker_stats defender_stats
        crit_chance rng).damage := by
  have hpre : (1:ℚ) ≤ preCritDamage base_damage damage_type attacker_stats defender_stats := by
    unfold preCritDamage
    exact le_max_left _ _
  have hpre0 : (0:ℚ) ≤ preCritDamage base_damage damage_type attacker_stats defender_stats :=
    le_trans zero_le_one hpre
  have hbonus :
      (if damage_type = DamageType.physical then
        (base_damage : ℚ) + (attacker_stats.strength : ℚ) * (5/10)
      else if damage_type ∈ ([.fire, .ice, .lightning, .arcane] : List DamageType) then
        (base_damage : ℚ) + (attacker_stats.intelligence : ℚ) * (7/10)
      else (base_damage : ℚ)) - (defender_stats.vitality : ℚ) * (3/10)
      = (base_damage : ℚ) +
        (if damage_type = DamageType.physical then (attacker_stats.strength : ℚ) * (5/10)
         else if damage_type ∈ ([.fire, .ice, .lightning, .arcane] : List DamageType) then
           (attacker_stats.intelligence : ℚ) * (7/10)
         else 0) - (defender_stats.vitality : ℚ) * (3/10) := by
    split_ifs <;> ring
  have key : (calculate_damage base_damage damage_type attacker_stats defender_stats
      crit_chance rng).damage
      = pyInt ((if rng.critRoll < crit_chance then (2:ℚ) else 1) *
          preCritDamage base_damage damage_type attacker_stats defender_stats) := by
    unfold calculate_damage preCritDamage
    simp only [hbonus, decide_eq_true_eq]
    split_ifs <;> (congr 1; ring)
  constructor
  · rw [key]
    split_ifs with h
    · rw [pyInt_of_nonneg (by linarith)]
    · rw [one_mul, pyInt_of_nonneg hpre0]
  · rw [key]
    split_ifs with h
    · rw [pyInt_of_nonneg (by linarith), Int.le_floor]
      push_cast
      linarith
    · rw [one_mul, pyInt_of_nonneg hpre0, Int.le_floor]
      push_cast
      linarith

/-! ## Players, enemies and the combat loop -/

/-- `LootItem` dataclass.  The `stats` dict (string keys, `int` values,
insertion-ordered in Python) is modelled as an association list. -/
structure LootItem where
  id : String
  name : String
  type : ItemType
  rarity : ItemRarity
  stats : List (String × ℤ)
  value : ℤ
  effect : Option String
  deriving DecidableEq, Repr

/-- `Player` dataclass. -/
structure Player where
  id : String
  name : String
  level : ℕ
  health : ℤ
  max_health : ℤ
  mana : ℤ
  max_mana : ℤ
  stats : Stats
  gold : ℤ
  experience : ℤ
  status_effects : List StatusEffect
  inventory : List LootItem
  deriving DecidableEq, Repr

/-- `Enemy` dataclass. -/
structure Enemy where
  id : String
  type : String
  level : ℕ
  health : ℤ
  max_health : ℤ
  damage : ℤ
  stats : Stats
  experience : ℤ
  gold_reward : ℤ
  deriving DecidableEq, Repr

/-- One `round_info` dict of `simulate_combat`'s combat log; the
`enemyAttack`/`playerHealth` keys are present only when the enemy is still
alive after the player's attack. -/
structure RoundInfo where
  round : ℕ
  playerAttack : DamageResult
  enemyHealth : ℤ
  enemyAttack : Option DamageResult
  playerHealth : Option ℤ
  deriving DecidableEq, Repr

/-- The dict returned by `CombatSystem.simulate_combat`. -/
structure CombatResult where
  victory : Bool
  rounds : ℕ
  finalPlayerHealth : ℤ
  finalEnemyHealth : ℤ
  combatLog : List RoundInfo
  deriving DecidableEq, Repr

/-- The two `calculate_damage` calls of one combat round. -/
structure RoundRng where
  playerAtk : CalcRng
  enemyAtk : CalcRng
  deriving Repr

/-- Random draws of a whole combat: one `RoundRng` per round number. -/
abbrev CombatRng := ℕ → RoundRng

/-- The `while` loop of `CombatSystem.simulate_combat`
(`looter_shooter_game.py` lines 287-318), with the mutable Python locals
(`round_num`, `player_health`, `enemy_health`, `rounds` log) threaded
explicitly.  The `player`/`enemy` arguments are threaded through as live
entity state (Python objects are mutable references); the loop body contains
no field assignment, so each iteration passes them on unchanged.  The fuel
argument equals `100 - round_num`, so fuel exhaustion is exactly the
`round_num < 100` bound of the `while` condition. -/
def combat_loop (rng : CombatRng) :
    ℕ → ℕ → Player → Enemy → ℤ → ℤ → List RoundInfo →
    ℕ × Player × Enemy × ℤ × ℤ × List RoundInfo
  | 0, round_num, p, e, ph, eh, log => (round_num, p, e, ph, eh, log)
  | fuel + 1, round_num, p, e, ph, eh, log =>
    if 0 < ph ∧ 0 < eh then
      let r' := round_num + 1
      let pd := calculate_damage (20 + (p.level : ℤ) * 5) .physical p.stats
        e.stats (1/10) (rng r').playerAtk
      let eh' := eh - pd.damage
      if 0 < eh' then
        let ed := calculate_damage e.damage .physical e.stats p.stats (1/10)
          (rng r').enemyAtk
        let ph' := ph - ed.damage
        combat_loop rng fuel r' p e ph' eh'
          (log ++ [⟨r', pd, max 0 eh', some ed, some (max 0 ph')⟩])
      else
        combat_loop rng fuel r' p e ph eh'
          (log ++ [⟨r', pd, max 0 eh', none, none⟩])
    else (round_num, p, e, ph, eh, log)

/-- `CombatSystem.simulate_combat` (`looter_shooter_game.py` lines 279-328),
returning the result dict together with the final state of the two entity
arguments. -/
def simulate_combat_full (player : Player) (enemy : Enemy) (rng : CombatRng) :
    CombatResult × Player × Enemy :=
  let res := combat_loop rng 100 0 player enemy player.health enemy.health []
  ({ victory := decide (0 < res.2.2.2.1)
     rounds := res.1
     finalPlayerHealth := max 0 res.2.2.2.1
     finalEnemyHealth := max 0 res.2.2.2.2.1
     combatLog := res.2.2.2.2.2 },
   res.2.1, res.2.2.1)

/-- The result dict of `CombatSystem.simulate_combat`. -/
def simulate_combat (player : Player) (enemy : Enemy) (rng : CombatRng) :
    CombatResult :=
  (simulate_combat_full player enemy rng).1

theorem combat_loop_round_le (rng : CombatRng) :
    ∀ (fuel round_num : ℕ) (p : Player) (e : Enemy) (ph eh : ℤ)
      (log : List RoundInfo),
      (combat_loop rng fuel round_num p e ph eh log).1 ≤ round_num + fuel := by
  intro fuel
  induction fuel with
  | zero => intro r p e ph eh log; simp [combat_loop]
  | succ n ih =>
    intro r p e ph eh log
    simp only [combat_loop]
    split_ifs with h1 h2
    · exact le_trans (ih _ _ _ _ _ _) (by omega)
    · exact le_trans (ih _ _ _ _ _ _) (by omega)
    · simp

/-- **C3.** `simulate_combat` terminates within at most 100 rounds, and the
returned result has `victory = true` if and only if the internal running
player health at loop exit is positive. -/
theorem C3_simulate_combat_rounds_and_victory (p : Player) (e : Enemy)
    (rng : CombatRng) :
    (simulate_combat p e rng).rounds ≤ 100 ∧
    ((simulate_combat p e rng).victory = true ↔
      0 < (combat_loop rng 100 0 p e p.health e.health []).2.2.2.1) := by
  constructor
  · have := combat_loop_round_le rng 100 0 p e p.health e.health []
    simpa [simulate_combat, simulate_combat_full] using this
  · simp [simulate_combat, simulate_combat_full]

theorem combat_loop_entities (rng : CombatRng) :
    ∀ (fuel round_num : ℕ) (p : Player) (e : Enemy) (ph eh : ℤ)
      (log : List RoundInfo),
      (combat_loop rng fuel round_num p e ph eh log).2.1 = p ∧
      (combat_loop rng fuel round_num p e ph eh log).2.2.1 = e := by
  intro fuel
  induction fuel with
  | zero => intro r p e ph eh log; simp [combat_loop]
  | succ n ih =>
    intro r p e ph eh log
    simp only [combat_loop]
    split_ifs with h1 h2
    · exact ih _ _ _ _ _ _
    · exact ih _ _ _ _ _ _
    · exact ⟨rfl, rfl⟩

/-- **C10.** `simulate_combat` modifies neither of its arguments: the combat
loop only updates local simulation variables, so the player and the enemy
hold the same field values after the call as before it. -/
theorem C10_simulate_combat_frame (p : Player) (e : Enemy) (rng : CombatRng) :
    (simulate_combat_full p e rng).2.1 = p ∧
    (simulate_combat_full p e rng).2.2 = e := by
  have h := combat_loop_entities rng 100 0 p e p.health e.health []
  exact ⟨by simpa [simulate_combat_full] using h.1,
         by simpa [simulate_combat_full] using h.2⟩

/-- A player whose every attack deals exactly 1 damage against `c4Enemy` and
who soaks the enemy's attacks down to 1 damage: combat then runs the full
100 rounds with both sides still alive. -/
def c4Player : Player :=
  { id := "player_1", name := "Hero", level := 0, health := 200,
    max_health := 200, mana := 0, max_mana := 0,
    stats := ⟨0, 0, 0, 100⟩, gold := 0, experience := 0,
    status_effects := [], inventory := [] }

/-- Counterpart enemy for the 100-round draw scenario. -/
def c4Enemy : Enemy :=
  { id := "enemy_1", type := "zombie", level := 0, health := 200,
    max_health := 200, damage := 0, stats := ⟨0, 0, 0, 100⟩,
    experience := 0, gold_reward := 0 }

/-- Combat randomness where no crit ever fires (crit roll 1 is never below
the 0.1 crit chance). -/
def c4Rng : CombatRng := fun _ => ⟨⟨1, 1, 0⟩, ⟨1, 1, 0⟩⟩

theorem c4_calc (b : ℤ) (hb : b ≤ 31) :
    calculate_damage b .physical ⟨0, 0, 0, 100⟩ ⟨0, 0, 0, 100⟩ (1/10) ⟨1, 1, 0⟩
      = ⟨1, .physical, false, none⟩ := by
  unfold calculate_damage
  have h1 : ((b:ℚ) + (0:ℤ) * (5/10) - (100:ℤ) * (3/10)) ≤ 1 := by
    push_cast
    have : (b:ℚ) ≤ 31 := by exact_mod_cast hb
    linarith
  norm_num
  rw [max_eq_left (by push_cast at h1 ⊢; linarith)]
  norm_num [pyInt]

theorem c4_loop : ∀ (fuel r : ℕ) (log : List RoundInfo), r + fuel ≤ 100 →
    (combat_loop c4Rng fuel r c4Player c4Enemy (200 - (r:ℤ)) (200 - (r:ℤ))
        log).1 = r + fuel ∧
    (combat_loop c4Rng fuel r c4Player c4Enemy (200 - (r:ℤ)) (200 - (r:ℤ))
        log).2.2.2.1 = 200 - ((r:ℤ) + fuel) ∧
    (combat_loop c4Rng fuel r c4Player c4Enemy (200 - (r:ℤ)) (200 - (r:ℤ))
        log).2.2.2.2.1 = 200 - ((r:ℤ) + fuel) := by
  intro fuel
  induction fuel with
  | zero => intro r log h; simp [combat_loop]
  | succ n ih =>
    intro r log h
    have hr99 : (r:ℤ) ≤ 99 := by exact_mod_cast (by omega : r ≤ 99)
    have hc : (0:ℤ) < 200 - (r:ℤ) := by omega
    have hc2 : (0:ℤ) < 200 - (r:ℤ) - 1 := by omega
    simp only [combat_loop]
    rw [if_pos ⟨hc, hc⟩]
    have hstats : c4Player.stats = (⟨0, 0, 0, 100⟩ : Stats) := rfl
    have hestats : c4Enemy.stats = (⟨0, 0, 0, 100⟩ : Stats) := rfl
    have hbase : (20 + (c4Player.level : ℤ) * 5) = 20 := rfl
    have hedmg : c4Enemy.damage = 0 := rfl
    have hrng : ∀ k, c4Rng k = ⟨⟨1, 1, 0⟩, ⟨1, 1, 0⟩⟩ := fun _ => rfl
    have hc20 := c4_calc 20 (by norm_num)
    have hc0 := c4_calc 0 (by norm_num)
    simp only [hrng, hstats, hestats, hbase, hedmg, hc20, hc0]
    rw [if_pos hc2]
    have harg : (200 - (r:ℤ) - 1) = 200 - ((r+1 : ℕ) : ℤ) := by push_cast; ring
    rw [harg]
    obtain ⟨ha, hb, hcc⟩ := ih (r + 1) _ (by omega)
    refine ⟨?_, ?_, ?_⟩
    · rw [ha]; omega
    · rw [hb]; push_cast; ring
    · rw [hcc]; push_cast; ring

/-- **C4, counterexample.** A combat that exits the loop because the round
count reached 100 while both healths are still positive nevertheless reports
`victory = true`: the code computes victory solely as `player_health > 0`. -/
theorem C4_counterexample :
    (simulate_combat c4Player c4Enemy c4Rng).rounds = 100 ∧
    0 < (simulate_combat c4Player c4Enemy c4Rng).finalPlayerHealth ∧
    0 < (simulate_combat c4Player c4Enemy c4Rng).finalEnemyHealth ∧
    (simulate_combat c4Player c4Enemy c4Rng).victory = true := by
  have h := c4_loop 100 0 [] (by norm_num)
  simp only [Nat.cast_zero, zero_add, sub_zero] at h
  have hp : c4Player.health = 200 := rfl
  have he : c4Enemy.health = 200 := rfl
  obtain ⟨h1, h2, h3⟩ := h
  refine ⟨?_, ?_, ?_, ?_⟩ <;>
    simp [simulate_combat, simulate_combat_full, hp, he, h1, h2, h3]

/-- **C4, amended.** When `simulate_combat`'s loop exits at the 100-round
safety bound while both the player's and the enemy's health are still
positive, the returned result reports `victory = true` (victory is computed
as `player_health > 0`, so exhaustion with a living player counts as
victory, not as a draw or defeat). -/
theorem C4_exhaustion_is_victory (p : Player) (e : Enemy) (rng : CombatRng)
    (hrounds : (combat_loop rng 100 0 p e p.health e.health []).1 = 100)
    (hp : 0 < (combat_loop rng 100 0 p e p.health e.health []).2.2.2.1)
    (he : 0 < (combat_loop rng 100 0 p e p.health e.health []).2.2.2.2.1) :
    (simulate_combat p e rng).victory = true := by
  simp [simulate_combat, simulate_combat_full, hp]

/-- Witness for C4: the concrete 100-round draw scenario satisfies the three
hypotheses, and the theorem yields `victory = true` there. -/
theorem C4_exhaustion_is_victory_witness :
    (simulate_combat c4Player c4Enemy c4Rng).victory = true := by
  have h := c4_loop 100 0 [] (by norm_num)
  simp only [Nat.cast_zero, zero_add, sub_zero] at h
  have hp : c4Player.health = 200 := rfl
  have he : c4Enemy.health = 200 := rfl
  obtain ⟨h1, h2, h3⟩ := h
  exact C4_exhaustion_is_victory c4Player c4Enemy c4Rng
    (by rw [hp, he]; exact h1) (by rw [hp, he, h2]; norm_num)
    (by rw [hp, he, h3]; norm_num)

/-! ## Loot generation (`LootSystem`) -/

/-- `LootSystem.ITEM_PREFIXES` table. -/
def ITEM_PREFIXES : ItemType → List String
  | .weapon => ["Sharp", "Keen", "Brutal", "Swift", "Deadly", "Ancient",
      "Cursed", "Blessed", "Vengeful", "Divine"]
  | .armor => ["Sturdy", "Light", "Heavy", "Reinforced", "Magical", "Dragon",
      "Shadow", "Holy", "Ethereal", "Titan"]
  | .potion => ["Minor", "Lesser", "Greater", "Major", "Superior", "Divine"]
  | .scroll => ["Scroll of", "Tome of", "Grimoire of", "Codex of"]

/-- `LootSystem.ITEM_TYPES_NAMES` table. -/
def ITEM_TYPES_NAMES : ItemType → List String
  | .weapon => ["Sword", "Axe", "Bow", "Staff", "Dagger", "Mace", "Spear",
      "Hammer", "Wand"]
  | .armor => ["Helmet", "Chestplate", "Boots", "Gauntlets", "Shield",
      "Cloak", "Belt", "Ring"]
  | .potion => ["Health Potion", "Mana Potion", "Strength Elixir",
      "Defense Tonic", "Speed Draught"]
  | .scroll => ["Fireball", "Lightning", "Ice Storm", "Healing",
      "Teleportation", "Summoning"]

/-- The `multiplier` column of `LootSystem.RARITY_VALUES`. -/
def RARITY_MULTIPLIER : ItemRarity → ℚ
  | .common => 1
  | .uncommon => 15/10
  | .rare => 2
  | .epic => 3
  | .legendary => 5

/-- The `sell_value` column of `LootSystem.RARITY_VALUES`. -/
def RARITY_SELL_VALUE : ItemRarity → ℤ
  | .common => 10
  | .uncommon => 25
  | .rare => 50
  | .epic => 100
  | .legendary => 250

/-- Random draws consumed by one `LootSystem.generate_item` call: the
optional item-type roll, the two `random.choice` name draws, the optional
extra-stat roll, and the `random.randint(1000, 9999)` id draw. -/
structure ItemRng where
  typeRoll : ℚ
  pfxIdx : ℕ
  nameIdx : ℕ
  statRoll : ℚ
  idNum : ℕ

/-- `LootSystem._random_item_type`. -/
def random_item_type (roll : ℚ) : ItemType :=
  if roll * 100 < 35 then .weapon
  else if roll * 100 < 70 then .armor
  else if roll * 100 < 90 then .potion
  else .scroll

/-- `LootSystem._generate_item_name` (all three branches of the source
produce the same `f'{prefix} {base_name}'` string). -/
def generate_item_name (item_type : ItemType) (rng : ItemRng) : String :=
  let pfx := (ITEM_PREFIXES item_type).getD
    (rng.pfxIdx % (ITEM_PREFIXES item_type).length) ""
  let base_name := (ITEM_TYPES_NAMES item_type).getD
    (rng.nameIdx % (ITEM_TYPES_NAMES item_type).length) ""
  pfx ++ " " ++ base_name

/-- `LootSystem._generate_stats`. -/
def generate_stats (item_type : ItemType) (rarity : ItemRarity)
    (player_level : ℕ) (rng : ItemRng) : List (String × ℤ) :=
  let multiplier := RARITY_MULTIPLIER rarity
  if item_type = .weapon then
    let base := [("damage", pyInt ((10 + (player_level : ℚ) * 2) * multiplier))]
    if rng.statRoll < 5/10 then
      base ++ [("critChance", pyInt (5 * multiplier))]
    else base
  else if item_type = .armor then
    let base := [("defense", pyInt ((8 + (player_level : ℚ) * (15/10)) * multiplier))]
    if rng.statRoll < 5/10 then
      base ++ [("health", pyInt (20 * multiplier))]
    else base
  else []

/-- `LootSystem._calculate_value`. -/
def calculate_value (rarity : ItemRarity) (stats : List (String × ℤ)) : ℤ :=
  RARITY_SELL_VALUE rarity + (stats.map (fun s => s.2)).sum * 2

/-- Python's `pat in s` substring test. -/
def strContains (s pat : String) : Bool := decide (pat.toList <:+: s.toList)

/-- Python's `name.split()[-1]` on the single-space-joined names produced by
`generate_item_name`. -/
def lastWord (s : String) : String := (s.splitOn " ").getLastD ""

/-- `LootSystem._generate_effect`. -/
def generate_effect (item_type : ItemType) (name : String) : String :=
  if item_type = .potion then
    if strContains name "Health" then "Restores health over time"
    else if strContains name "Mana" then "Restores mana over time"
    else if strContains name "Strength" then "Temporarily increases strength"
    else if strContains name "Defense" then "Temporarily increases defense"
    else "Increases movement speed"
  else "Casts " ++ lastWord name ++ " spell"

/-- `LootSystem.generate_item` (`looter_shooter_game.py` lines 356-381). -/
def generate_item (rarity : ItemRarity) (item_type? : Option ItemType)
    (player_level : ℕ) (rng : ItemRng) : LootItem :=
  let item_type := match item_type? with
    | none => random_item_type rng.typeRoll
    | some t => t
  let name := generate_item_name item_type rng
  let stats := generate_stats item_type rarity player_level rng
  let value := calculate_value rarity stats
  let item_id := "item_" ++ toString (1000 + rng.idNum % 9000)
  let effect := if item_type = .potion ∨ item_type = .scroll then
    some (generate_effect item_type name) else none
  { id := item_id, name := name, type := item_type, rarity := rarity,
    stats := stats, value := value, effect := effect }

/-- Position of a rarity in the order common < uncommon < rare < epic <
legendary. -/
def rarity_rank : ItemRarity → ℕ
  | .common => 0
  | .uncommon => 1
  | .rare => 2
  | .epic => 3
  | .legendary => 4

theorem generate_item_value (rarity : ItemRarity) (item_type? : Option ItemType)
    (player_level : ℕ) (rng : ItemRng) :
    (generate_item rarity item_type? player_level rng).value =
      RARITY_SELL_VALUE rarity +
        2 * ((generate_item rarity item_type? player_level rng).stats.map
          (fun s => s.2)).sum := by
  cases item_type? <;> simp [generate_item, calculate_value] <;> ring

/-- **C7.** Every generated item has
`value = rarityBaseSellValue + 2 * sum(statValues)`; the base sell values
are 10/25/50/100/250 for common/uncommon/rare/epic/legendary; and for the
stat-free item types (potion, scroll) the value is strictly increasing
across the rarity order. -/
theorem C7_item_value_formula (rarity : ItemRarity) (item_type? : Option ItemType)
    (player_level : ℕ) (rng : ItemRng) :
    ((generate_item rarity item_type? player_level rng).value =
      RARITY_SELL_VALUE rarity +
        2 * ((generate_item rarity item_type? player_level rng).stats.map
          (fun s => s.2)).sum) ∧
    (RARITY_SELL_VALUE .common = 10 ∧ RARITY_SELL_VALUE .uncommon = 25 ∧
      RARITY_SELL_VALUE .rare = 50 ∧ RARITY_SELL_VALUE .epic = 100 ∧
      RARITY_SELL_VALUE .legendary = 250) ∧
    (∀ t : ItemType, t = .potion ∨ t = .scroll →
      (generate_item rarity (some t) player_level rng).stats = [] ∧
      ∀ r1 r2 : ItemRarity, rarity_rank r1 < rarity_rank r2 →
        (generate_item r1 (some t) player_level rng).value <
          (generate_item r2 (some t) player_level rng).value) := by
  refine ⟨generate_item_value rarity item_type? player_level rng,
    ⟨rfl, rfl, rfl, rfl, rfl⟩, ?_⟩
  intro t ht
  have hstats : ∀ r : ItemRarity, (generate_item r (some t) player_level rng).stats = [] := by
    intro r
    rcases ht with h | h <;> subst h <;> simp [generate_item, generate_stats]
  refine ⟨hstats rarity, ?_⟩
  intro r1 r2 hr
  have h1 := generate_item_value r1 (some t) player_level rng
  have h2 := generate_item_value r2 (some t) player_level rng
  rw [hstats r1] at h1
  rw [hstats r2] at h2
  simp at h1 h2
  rw [h1, h2]
  cases r1 <;> cases r2 <;> simp_all [rarity_rank, RARITY_SELL_VALUE]

/-- Witness for C7: a potion at fixed inputs has empty stats, and its value
strictly increases from common to legendary. -/
theorem C7_item_value_formula_witness :
    (generate_item .common (some .potion) 1 ⟨0, 0, 0, 0, 0⟩).stats = [] ∧
    (generate_item .common (some .potion) 1 ⟨0, 0, 0, 0, 0⟩).value <
      (generate_item .legendary (some .potion) 1 ⟨0, 0, 0, 0, 0⟩).value :=
  ⟨((C7_item_value_formula .common (some .potion) 1 ⟨0, 0, 0, 0, 0⟩).2.2
      .potion (Or.inl rfl)).1,
   ((C7_item_value_formula .common (some .potion) 1 ⟨0, 0, 0, 0, 0⟩).2.2
      .potion (Or.inl rfl)).2 .common .legendary (by decide)⟩

/-! ## Enemy factory and the integration layer's enum parsing -/

/-- `EnemyFactory.ENEMY_TYPES` table, as a partial lookup:
`(health, damage, experience, gold)` per known enemy type name. -/
def ENEMY_TYPES (t : String) : Option (ℤ × ℤ × ℤ × ℤ) :=
  if t = "zombie" then some (50, 10, 20, 5)
  else if t = "skeleton" then some (40, 15, 25, 8)
  else if t = "orc" then some (80, 20, 35, 12)
  else if t = "demon" then some (200, 40, 100, 50)
  else none

/-- `EnemyFactory.create_enemy` (`looter_shooter_game.py` lines 461-493):
an unknown `enemy_type` string is silently replaced by `'zombie'`.
`idDraw` is the `random.randint(1000, 9999)` draw for the enemy id. -/
def create_enemy (enemy_type : String) (level : ℕ) (idDraw : ℕ) : Enemy :=
  let enemy_type := if (ENEMY_TYPES enemy_type).isNone then "zombie" else enemy_type
  let template := (ENEMY_TYPES enemy_type).getD (50, 10, 20, 5)
  let level_multiplier : ℚ := 1 + ((level : ℚ) - 1) * (3/10)
  let health := pyInt ((template.1 : ℚ) * level_multiplier)
  let damage := pyInt ((template.2.1 : ℚ) * level_multiplier)
  let experience := pyInt ((template.2.2.1 : ℚ) * level_multiplier)
  let gold := pyInt ((template.2.2.2 : ℚ) * level_multiplier)
  { id := "enemy_" ++ toString (1000 + idDraw % 9000)
    type := enemy_type
    level := level
    health := health
    max_health := health
    damage := damage
    stats := ⟨8 + (level : ℤ) * 2, 6 + (level : ℤ), 5 + (level : ℤ),
      10 + (level : ℤ) * 2⟩
    experience := experience
    gold_reward := gold }

/-- Python `s.upper()` (ASCII name strings only). -/
def pyUpper (s : String) : String := String.mk (s.data.map Char.toUpper)

/-- `ItemRarity[name]` lookup by enum member name, as used by
`generate_loot_json`. -/
def rarity_from_name (s : String) : Option ItemRarity :=
  if s = "COMMON" then some .common
  else if s = "UNCOMMON" then some .uncommon
  else if s = "RARE" then some .rare
  else if s = "EPIC" then some .epic
  else if s = "LEGENDARY" then some .legendary
  else none

/-- `ItemType[name]` lookup by enum member name. -/
def item_type_from_name (s : String) : Option ItemType :=
  if s = "WEAPON" then some .weapon
  else if s = "ARMOR" then some .armor
  else if s = "POTION" then some .potion
  else if s = "SCROLL" then some .scroll
  else none

/-- `generate_loot_json` of `looter_shooter_integration.py` (lines 35-77),
up to JSON serialization: returns the generated items, or the `ValueError`
message raised for an unknown rarity or item-type string.  `if item_type:`
in Python is false for both `None` and the empty string. -/
def generate_loot_json (count : ℕ) (rarity : String) (item_type : Option String)
    (level : ℕ) (rng : ℕ → ItemRng) : Except String (List LootItem) :=
  match rarity_from_name (pyUpper rarity) with
  | none => .error ("Invalid rarity: " ++ rarity ++
      ". Must be one of: common, uncommon, rare, epic, legendary")
  | some rarity_enum =>
    match item_type with
    | none => .ok ((List.range count).map (fun i =>
        generate_item rarity_enum none level (rng i)))
    | some ts =>
      if ts = "" then
        .ok ((List.range count).map (fun i =>
          generate_item rarity_enum none level (rng i)))
      else
        match item_type_from_name (pyUpper ts) with
        | none => .error ("Invalid item type: " ++ ts ++
            ". Must be one of: weapon, armor, potion, scroll")
        | some t => .ok ((List.range count).map (fun i =>
            generate_item rarity_enum (some t) level (rng i)))

/-- **C8, counterexample.** Creating an enemy with the unknown enemy-type
string `"dragon"` is not a validation failure: `create_enemy` silently
repairs it into a `"zombie"` enemy. -/
theorem C8_counterexample :
    (create_enemy "dragon" 3 0).type = "zombie" ∧
    (create_enemy "dragon" 3 0).type ≠ "dragon" := by
  constructor <;> decide

/-- **C8, amended.** An unknown rarity or item-type string passed to
`generate_loot_json` fails with a `ValueError` message containing the
offending value; but an unknown enemy-type string is not rejected:
`create_enemy` silently repairs it into an enemy of type `'zombie'`. -/
theorem C8_enum_validation (count level : ℕ) (rng : ℕ → ItemRng) :
    (∀ rarity : String, ∀ item_type : Option String,
      rarity_from_name (pyUpper rarity) = none →
      generate_loot_json count rarity item_type level rng =
        .error ("Invalid rarity: " ++ rarity ++
          ". Must be one of: common, uncommon, rare, epic, legendary")) ∧
    (∀ rarity ts : String,
      rarity_from_name (pyUpper rarity) ≠ none → ts ≠ "" →
      item_type_from_name (pyUpper ts) = none →
      generate_loot_json count rarity (some ts) level rng =
        .error ("Invalid item type: " ++ ts ++
          ". Must be one of: weapon, armor, potion, scroll")) ∧
    (∀ (t : String) (lvl idDraw : ℕ), ENEMY_TYPES t = none →
      (create_enemy t lvl idDraw).type = "zombie") := by
  refine ⟨?_, ?_, ?_⟩
  · intro rarity item_type h
    simp [generate_loot_json, h]
  · intro rarity ts h1 h2 h3
    obtain ⟨r, hr⟩ := Option.ne_none_iff_exists'.mp h1
    simp [generate_loot_json, hr, h2, h3]
  · intro t lvl idDraw h
    simp [create_enemy, h, Option.isNone]

/-- Witness for C8: the unknown strings `"dragonfruit"` (rarity), `"wand"`
(item type) and `"dragon"` (enemy type) are rejected or repaired exactly as
the theorem states. -/
theorem C8_enum_validation_witness :
    generate_loot_json 1 "dragonfruit" none 1 (fun _ => ⟨0, 0, 0, 0, 0⟩) =
      .error ("Invalid rarity: dragonfruit" ++
        ". Must be one of: common, uncommon, rare, epic, legendary") ∧
    generate_loot_json 1 "rare" (some "wand") 1 (fun _ => ⟨0, 0, 0, 0, 0⟩) =
      .error ("Invalid item type: wand" ++
        ". Must be one of: weapon, armor, potion, scroll") ∧
    (create_enemy "dragon" 7 0).type = "zombie" :=
  ⟨(C8_enum_validation 1 1 (fun _ => ⟨0, 0, 0, 0, 0⟩)).1 "dragonfruit" none
      (by decide),
   (C8_enum_validation 1 1 (fun _ => ⟨0, 0, 0, 0, 0⟩)).2.1 "rare" "wand"
      (by decide) (by decide) (by decide),
   (C8_enum_validation 1 1 (fun _ => ⟨0, 0, 0, 0, 0⟩)).2.2 "dragon" 7 0
      (by decide)⟩

/-! ## Dungeon run simulation (`GameSimulator`) -/

/-- `GameSimulator.create_player` (`looter_shooter_game.py` lines 499-526). -/
def create_player (name : String) (level : ℕ) : Player :=
  let health : ℤ := 100 + ((level : ℤ) - 1) * 20
  let mana : ℤ := 50 + ((level : ℤ) - 1) * 10
  { id := "player_1", name := name, level := level, health := health,
    max_health := health, mana := mana, max_mana := mana,
    stats := ⟨10 + ((level : ℤ) - 1) * 2, 10 + ((level : ℤ) - 1) * 2,
      10 + ((level : ℤ) - 1) * 2, 10 + ((level : ℤ) - 1) * 2⟩,
    gold := 100 * (level : ℤ), experience := 0, status_effects := [],
    inventory := [] }

/-- One entry of `simulate_dungeon_run`'s `enemies_defeated` list. -/
structure EnemyDetail where
  type : String
  level : ℕ
  combatRounds : ℕ
  deriving DecidableEq, Repr

/-- The dict returned by `GameSimulator.simulate_dungeon_run`; the keys
present only in the failure dict (`reason`) or only in the success dict
(`enemyDetails`, `totalGold`, `totalExperience`) are `Option`s. -/
structure RunResult where
  success : Bool
  reason : Option String
  enemiesDefeated : ℕ
  enemyDetails : Option (List EnemyDetail)
  lootCollected : List LootItem
  finalStats : Player
  totalGold : Option ℤ
  totalExperience : Option ℤ
  deriving DecidableEq, Repr

/-- Random draws of a dungeon run, indexed by the enemy slot `i`:
the `random.choice` enemy-type draw, the enemy id draw, the per-combat
draws, the 60% loot-drop roll, the rarity roll, and the item draws. -/
structure RunRng where
  enemyChoice : ℕ → ℕ
  enemyId : ℕ → ℕ
  combat : ℕ → CombatRng
  dropRoll : ℕ → ℚ
  rarityRoll : ℕ → ℚ
  item : ℕ → ItemRng

/-- The enemy type chosen for slot `i` of a dungeon run: `'demon'` for the
last slot when `dungeon_level >= 5`, else `random.choice` over
`['zombie', 'skeleton', 'orc']`. -/
def slot_enemy_type (dungeon_level num_enemies : ℕ) (rng : RunRng) (i : ℕ) :
    String :=
  if i = num_enemies - 1 ∧ 5 ≤ dungeon_level then "demon"
  else ["zombie", "skeleton", "orc"].getD (rng.enemyChoice i % 3) "zombie"

/-- The loot-rarity cascade of `simulate_dungeon_run` (lines 573-583). -/
def loot_rarity (roll : ℚ) : ItemRarity :=
  if roll < 5/10 then .common
  else if roll < 8/10 then .uncommon
  else if roll < 95/100 then .rare
  else if roll < 99/100 then .epic
  else .legendary

/-- The `for i in range(num_enemies)` loop of
`GameSimulator.simulate_dungeon_run` (`looter_shooter_game.py` lines
538-597), with the remaining slot indices, the mutable `player`,
`loot_collected` and `enemies_defeated` threaded explicitly.  Losing a
combat returns the failure dict immediately, ignoring the remaining
slots. -/
def run_loop (dungeon_level num_enemies : ℕ) (rng : RunRng) :
    List ℕ → Player → List LootItem → List EnemyDetail → RunResult
  | [], player, loot, det =>
    { success := true, reason := none, enemiesDefeated := det.length,
      enemyDetails := some det, lootCollected := loot, finalStats := player,
      totalGold := some player.gold, totalExperience := some player.experience }
  | i :: rest, player, loot, det =>
    let enemy := create_enemy (slot_enemy_type dungeon_level num_enemies rng i)
      dungeon_level (rng.enemyId i)
    let combat_result := simulate_combat player enemy (rng.combat i)
    if combat_result.victory then
      let player1 := { player with
        health := combat_result.finalPlayerHealth,
        experience := player.experience + enemy.experience,
        gold := player.gold + enemy.gold_reward }
      let det1 := det ++ [⟨enemy.type, enemy.level, combat_result.rounds⟩]
      if rng.dropRoll i < 6/10 then
        let loot_item := generate_item (loot_rarity (rng.rarityRoll i)) none
          dungeon_level (rng.item i)
        let player2 := { player1 with
          inventory := player1.inventory ++ [loot_item] }
        run_loop dungeon_level num_enemies rng rest player2
          (loot ++ [loot_item]) det1
      else
        run_loop dungeon_level num_enemies rng rest player1 loot det1
    else
      { success := false, reason := some ("Defeated by " ++ enemy.type),
        enemiesDefeated := det.length, enemyDetails := none,
        lootCollected := loot, finalStats := player, totalGold := none,
        totalExperience := none }

/-- `GameSimulator.simulate_dungeon_run`. -/
def simulate_dungeon_run (player_level dungeon_level : ℕ) (rng : RunRng) :
    RunResult :=
  run_loop dungeon_level (3 + dungeon_level) rng
    (List.range (3 + dungeon_level)) (create_player "Hero" player_level) [] []

theorem run_loop_defeated (dungeon_level num_enemies : ℕ) (rng : RunRng) :
    ∀ (slots : List ℕ) (p : Player) (loot : List LootItem)
      (det : List EnemyDetail),
      ((run_loop dungeon_level num_enemies rng slots p loot det).success = true ∧
        (run_loop dungeon_level num_enemies rng slots p loot det).enemiesDefeated
          = det.length + slots.length) ∨
      ((run_loop dungeon_level num_enemies rng slots p loot det).success = false ∧
        (run_loop dungeon_level num_enemies rng slots p loot det).enemiesDefeated
          < det.length + slots.length) := by
  intro slots
  induction slots with
  | nil => intro p loot det; left; exact ⟨rfl, by simp [run_loop]⟩
  | cons i rest ih =>
    intro p loot det
    simp only [run_loop]
    split_ifs with h1 h2
    · rcases ih _ _ (det ++ [⟨(create_enemy (slot_enemy_type dungeon_level
        num_enemies rng i) dungeon_level (rng.enemyId i)).type,
        (create_enemy (slot_enemy_type dungeon_level
          num_enemies rng i) dungeon_level (rng.enemyId i)).level,
        (simulate_combat p (create_enemy (slot_enemy_type dungeon_level
          num_enemies rng i) dungeon_level (rng.enemyId i))
          (rng.combat i)).rounds⟩]) with h | h
      · left
        refine ⟨h.1, ?_⟩
        rw [h.2]
        simp
        omega
      · right
        refine ⟨h.1, ?_⟩
        have := h.2
        simp at this ⊢
        omega
    · rcases ih _ _ (det ++ [⟨(create_enemy (slot_enemy_type dungeon_level
        num_enemies rng i) dungeon_level (rng.enemyId i)).type,
        (create_enemy (slot_enemy_type dungeon_level
          num_enemies rng i) dungeon_level (rng.enemyId i)).level,
        (simulate_combat p (create_enemy (slot_enemy_type dungeon_level
          num_enemies rng i) dungeon_level (rng.enemyId i))
          (rng.combat i)).rounds⟩]) with h | h
      · left
        refine ⟨h.1, ?_⟩
        rw [h.2]
        simp
        omega
      · right
        refine ⟨h.1, ?_⟩
        have := h.2
        simp at this ⊢
        omega
    · right
      exact ⟨rfl, by simp⟩

/-- **C6.** A dungeon run fights `3 + dungeonLevel` enemy slots in sequence
(success reports exactly that many defeated enemies, and any failure
reports fewer); the last slot is a `'demon'` exactly when
`dungeonLevel >= 5`, and every other draw is the uniform `random.choice`
over `['zombie', 'skeleton', 'orc']` (index-faithful, hence uniform and
never a demon); and the first lost combat makes the run return the failure
dict immediately — carrying the loot collected and the enemies defeated so
far — without touching the remaining slots. -/
theorem C6_simulate_dungeon_run_spec (player_level dungeon_level : ℕ)
    (rng : RunRng) :
    ((simulate_dungeon_run player_level dungeon_level rng).success = true ↔
      (simulate_dungeon_run player_level dungeon_level rng).enemiesDefeated
        = 3 + dungeon_level) ∧
    (5 ≤ dungeon_level →
      slot_enemy_type dungeon_level (3 + dungeon_level) rng
        (3 + dungeon_level - 1) = "demon") ∧
    (∀ i : ℕ, ¬(i = 3 + dungeon_level - 1 ∧ 5 ≤ dungeon_level) →
      slot_enemy_type dungeon_level (3 + dungeon_level) rng i =
        (["zombie", "skeleton", "orc"] : List String).getD
          (rng.enemyChoice i % 3) "zombie" ∧
      slot_enemy_type dungeon_level (3 + dungeon_level) rng i ∈
        (["zombie", "skeleton", "orc"] : List String) ∧
      slot_enemy_type dungeon_level (3 + dungeon_level) rng i ≠ "demon") ∧
    (∀ j k : ℕ, j < 3 → k < 3 →
      (["zombie", "skeleton", "orc"] : List String).getD j "zombie" =
        (["zombie", "skeleton", "orc"] : List String).getD k "zombie" →
      j = k) ∧
    (∀ (i : ℕ) (rest : List ℕ) (p : Player) (loot : List LootItem)
        (det : List EnemyDetail),
      (simulate_combat p (create_enemy
        (slot_enemy_type dungeon_level (3 + dungeon_level) rng i)
        dungeon_level (rng.enemyId i)) (rng.combat i)).victory = false →
      run_loop dungeon_level (3 + dungeon_level) rng (i :: rest) p loot det =
        { success := false,
          reason := some ("Defeated by " ++ (create_enemy
            (slot_enemy_type dungeon_level (3 + dungeon_level) rng i)
            dungeon_level (rng.enemyId i)).type),
          enemiesDefeated := det.length, enemyDetails := none,
          lootCollected := loot, finalStats := p, totalGold := none,
          totalExperience := none }) := by
  refine ⟨?_, ?_, ?_, ?_, ?_⟩
  · have h := run_loop_defeated dungeon_level (3 + dungeon_level) rng
      (List.range (3 + dungeon_level)) (create_player "Hero" player_level) [] []
    simp only [List.length_range, List.length_nil, zero_add] at h
    unfold simulate_dungeon_run
    rcases h with ⟨hs, hd⟩ | ⟨hs, hd⟩
    · simp [hs, hd]
    · simp [hs]
      omega
  · intro h5
    simp [slot_enemy_type, h5]
  · intro i hi
    have : slot_enemy_type dungeon_level (3 + dungeon_level) rng i =
        (["zombie", "skeleton", "orc"] : List String).getD
          (rng.enemyChoice i % 3) "zombie" := by
      unfold slot_enemy_type
      rw [if_neg hi]
    refine ⟨this, ?_, ?_⟩ <;> rw [this]
    · have h3 : rng.enemyChoice i % 3 < 3 := Nat.mod_lt _ (by norm_num)
      interval_cases h : (rng.enemyChoice i % 3) <;> simp
    · have h3 : rng.enemyChoice i % 3 < 3 := Nat.mod_lt _ (by norm_num)
      interval_cases h : (rng.enemyChoice i % 3) <;> simp
  · intro j k hj hk h
    interval_cases j <;> interval_cases k <;> simp_all
  · intro i rest p loot det hv
    simp only [run_loop, hv]
    simp

/-- A player already at 0 health: the very first combat of a run against
this player is lost. -/
def c6DeadPlayer : Player :=
  { id := "player_1", name := "Hero", level := 1, health := 0,
    max_health := 100, mana := 50, max_mana := 50, stats := ⟨10, 10, 10, 10⟩,
    gold := 100, experience := 0, status_effects := [], inventory := [] }

/-- Trivial dungeon-run randomness: every stream constantly 0 except the
crit rolls, which are 1 (never below the crit chance). -/
def c6Rng : RunRng :=
  { enemyChoice := fun _ => 0, enemyId := fun _ => 0,
    combat := fun _ _ => ⟨⟨1, 1, 0⟩, ⟨1, 1, 0⟩⟩,
    dropRoll := fun _ => 1, rarityRoll := fun _ => 0,
    item := fun _ => ⟨0, 0, 0, 0, 0⟩ }

/-- Witness for C6 at dungeon level 5 (8 slots): the boss slot is a demon,
slot 0 is the uniform choice (here `"zombie"`), and a run whose first
combat is lost returns the failure dict immediately. -/
theorem C6_simulate_dungeon_run_spec_witness :
    slot_enemy_type 5 8 c6Rng 7 = "demon" ∧
    slot_enemy_type 5 8 c6Rng 0 = "zombie" ∧
    run_loop 5 8 c6Rng [0, 1] c6DeadPlayer [] [] =
      { success := false,
        reason := some ("Defeated by " ++ (create_enemy
          (slot_enemy_type 5 (3 + 5) c6Rng 0) 5 (c6Rng.enemyId 0)).type),
        enemiesDefeated := 0, enemyDetails := none, lootCollected := [],
        finalStats := c6DeadPlayer, totalGold := none,
        totalExperience := none } := by
  refine ⟨(C6_simulate_dungeon_run_spec 1 5 c6Rng).2.1 (by norm_num), ?_, ?_⟩
  · have h := ((C6_simulate_dungeon_run_spec 1 5 c6Rng).2.2.1 0
      (by decide)).1
    simpa [c6Rng] using h
  · have h := (C6_simulate_dungeon_run_spec 1 5 c6Rng).2.2.2.2 0 [1]
      c6DeadPlayer [] [] (by decide)
    simpa using h

/-! ## Dungeon generation (`looter_shooter_dungeon.py`, `DungeonEngine`) -/

/-- `Position` dataclass of the dungeon generator. -/
structure Position where
  x : ℚ
  y : ℚ
  z : ℚ
  deriving DecidableEq, Repr

/-- `Room` dataclass. -/
structure Room where
  x : ℚ
  z : ℚ
  width : ℚ
  height : ℚ
  type : String
  deriving DecidableEq, Repr

/-- `Corridor` dataclass (`stop` is the Python field `end`, a Lean keyword). -/
structure Corridor where
  start : Position
  stop : Position
  width : ℚ
  deriving DecidableEq, Repr

/-- `Trap` dataclass. -/
structure Trap where
  id : String
  position : Position
  type : String
  damage : ℤ
  triggered : Bool
  deriving DecidableEq, Repr

/-- `SpawnPoint` dataclass. -/
structure SpawnPoint where
  position : Position
  enemy_type : String
  cooldown : ℤ
  last_spawn : ℤ
  deriving DecidableEq, Repr

/-- `Wall` dataclass. -/
structure Wall where
  x : ℚ
  z : ℚ
  width : ℚ
  height : ℚ
  depth : ℚ
  deriving DecidableEq, Repr

/-- The `metadata` dict of a generated dungeon. -/
structure DungeonMetadata where
  num_rooms : ℤ
  num_traps : ℤ
  num_spawn_points : ℤ
  deriving DecidableEq, Repr

/-- The dict returned by `DungeonEngine.generate_dungeon`. -/
structure Dungeon where
  rooms : List Room
  corridors : List Corridor
  traps : List Trap
  spawnPoints : List SpawnPoint
  walls : List Wall
  level : ℕ
  metadata : DungeonMetadata
  deriving DecidableEq, Repr

/-- Random draws and float oracles of one `generate_dungeon` call, one
stream per call site (`pi`, `cos` and `sin` stand for the `math` module's
float constants and functions; the claims do not depend on their values).
Per-room streams are indexed by the room index, per-trap streams by the trap
index, spawn-point streams by room index and spawn index. -/
structure DungeonRng where
  pi : ℚ
  cos : ℚ → ℚ
  sin : ℚ → ℚ
  roomDist : ℕ → ℚ
  roomTypeRoll : ℕ → ℚ
  roomW : ℕ → ℚ
  roomH : ℕ → ℚ
  trapRoom : ℕ → ℕ
  trapType : ℕ → ℕ
  trapOffX : ℕ → ℚ
  trapOffZ : ℕ → ℚ
  spawnCountRoll : ℕ → ℕ
  spawnChoice : ℕ → ℕ → ℕ
  spawnOffX : ℕ → ℕ → ℚ
  spawnOffZ : ℕ → ℕ → ℚ

/-- The spawn room created at the start of `generate_dungeon`. -/
def spawn_room : Room := { x := 0, z := 0, width := 15, height := 15, type := "spawn" }

/-- `DungeonEngine._determine_room_type` (lines 181-187). -/
def determine_room_type (index total_rooms : ℕ) (roll : ℚ) : String :=
  if index = total_rooms - 1 then "boss"
  else if roll < 2/10 then "treasure"
  else "normal"

/-- One iteration of the room-placement loop (lines 115-128). -/
def make_room (rng : DungeonRng) (num_rooms : ℕ) (i : ℕ) : Room :=
  let angle : ℚ := ((i : ℚ) / (num_rooms : ℚ)) * rng.pi * 2
  let distance : ℚ := 25 + rng.roomDist i * 10
  { x := rng.cos angle * distance
    z := rng.sin angle * distance
    width := 10 + rng.roomW i * 8
    height := 10 + rng.roomH i * 8
    type := determine_room_type i num_rooms (rng.roomTypeRoll i) }

/-- `DungeonEngine._create_trap` (lines 189-208).  A fresh engine starts
`trap_id_counter` at 0 and pre-increments it, so trap `i` gets id `i + 1`. -/
def create_trap (rng : DungeonRng) (room : Room) (level : ℕ) (i : ℕ) : Trap :=
  let trap_types := ["spike", "fire", "arrow", "poison"]
  let trap_type := trap_types.getD (rng.trapType i % trap_types.length) ""
  let offset_x := (rng.trapOffX i - 5/10) * room.width * (8/10)
  let offset_z := (rng.trapOffZ i - 5/10) * room.height * (8/10)
  { id := "trap_" ++ toString (i + 1)
    position := ⟨room.x + offset_x, 0, room.z + offset_z⟩
    type := trap_type
    damage := 10 + (level : ℤ) * 5
    triggered := false }

/-- `DungeonEngine._create_spawn_point` (lines 210-227); `ri` is the room
index and `j` the spawn index within the room. -/
def create_spawn_point (rng : DungeonRng) (room : Room) (is_boss : Bool)
    (ri j : ℕ) : SpawnPoint :=
  let enemy_types := if is_boss then ["demon"] else ["zombie", "skeleton", "orc"]
  let enemy_type := enemy_types.getD (rng.spawnChoice ri j % enemy_types.length) ""
  let offset_x := (rng.spawnOffX ri j - 5/10) * room.width * (7/10)
  let offset_z := (rng.spawnOffZ ri j - 5/10) * room.height * (7/10)
  { position := ⟨room.x + offset_x, 0, room.z + offset_z⟩
    enemy_type := enemy_type
    cooldown := if is_boss then 60000 else 30000
    last_spawn := 0 }

/-- `DungeonEngine._generate_room_walls` (lines 229-271): four walls per
room (north, south, east, west). -/
def generate_room_walls (room : Room) : List Wall :=
  let wall_thickness : ℚ := 1
  let wall_height : ℚ := 4
  [{ x := room.x, z := room.z - room.height / 2 - wall_thickness / 2,
     width := room.width + wall_thickness * 2, height := wall_height,
     depth := wall_thickness },
   { x := room.x, z := room.z + room.height / 2 + wall_thickness / 2,
     width := room.width + wall_thickness * 2, height := wall_height,
     depth := wall_thickness },
   { x := room.x + room.width / 2 + wall_thickness / 2, z := room.z,
     width := wall_thickness, height := wall_height, depth := room.height },
   { x := room.x - room.width / 2 - wall_thickness / 2, z := room.z,
     width := wall_thickness, height := wall_height, depth := room.height }]

/-- `DungeonEngine.generate_dungeon` (lines 93-179) for a fresh engine.
The room loop `for i in range(1, num_rooms)` appends `make_room` rooms after
the spawn room; corridors link each placed room to its predecessor in the
already-built list, plus the closing corridor back to spawn; traps, spawn
points and walls are derived from the final room list; the metadata counts
are the lengths of the final collections. -/
def generate_dungeon (level : ℕ) (rng : DungeonRng) : Dungeon :=
  let num_rooms := min (3 + level / 2) 8
  let rooms : List Room :=
    spawn_room :: (List.range' 1 (num_rooms - 1)).map (make_room rng num_rooms)
  let corridors0 : List Corridor := (List.range' 1 (num_rooms - 1)).map (fun i =>
    { start := ⟨(rooms.getD (i - 1) spawn_room).x, 0, (rooms.getD (i - 1) spawn_room).z⟩
      stop := ⟨(rooms.getD i spawn_room).x, 0, (rooms.getD i spawn_room).z⟩
      width := 3 })
  let corridors := if 1 < rooms.length then
      corridors0 ++
        [{ start := ⟨(rooms.getLastD spawn_room).x, 0, (rooms.getLastD spawn_room).z⟩
           stop := ⟨spawn_room.x, 0, spawn_room.z⟩
           width := 3 }]
    else corridors0
  let num_traps := (pyInt ((level : ℚ) * (15/10))).toNat
  let traps := (List.range num_traps).map (fun i =>
    create_trap rng (rooms.getD (rng.trapRoom i % rooms.length) spawn_room) level i)
  let spawnPoints := rooms.enum.flatMap (fun ri_room =>
    if ri_room.2.type ≠ "spawn" then
      let spawn_count := if ri_room.2.type = "boss" then 1
        else 2 + rng.spawnCountRoll ri_room.1 % 3
      (List.range spawn_count).map (fun j =>
        create_spawn_point rng ri_room.2 (ri_room.2.type == "boss") ri_room.1 j)
    else [])
  let walls := rooms.flatMap generate_room_walls
  { rooms := rooms
    corridors := corridors
    traps := traps
    spawnPoints := spawnPoints
    walls := walls
    level := level
    metadata := { num_rooms := (rooms.length : ℤ)
                  num_traps := (traps.length : ℤ)
                  num_spawn_points := (spawnPoints.length : ℤ) } }

theorem determine_room_type_ne_spawn (index total_rooms : ℕ) (roll : ℚ) :
    determine_room_type index total_rooms roll ≠ "spawn" := by
  unfold determine_room_type
  split_ifs <;> simp

theorem determine_room_type_eq_boss_iff (index total_rooms : ℕ) (roll : ℚ) :
    determine_room_type index total_rooms roll = "boss" ↔
      index = total_rooms - 1 := by
  unfold determine_room_type
  split_ifs with h1 h2 <;> simp_all

theorem length_flatMap_walls (l : List Room) :
    (l.flatMap generate_room_walls).length = 4 * l.length := by
  induction l with
  | nil => simp
  | cons r t ih =>
    simp only [List.flatMap_cons, List.length_append, ih, List.length_cons]
    simp [generate_room_walls]
    ring

theorem generate_dungeon_rooms (level : ℕ) (rng : DungeonRng) :
    (generate_dungeon level rng).rooms =
      spawn_room :: (List.range' 1 (min (3 + level / 2) 8 - 1)).map
        (make_room rng (min (3 + level / 2) 8)) := rfl

theorem make_room_type (rng : DungeonRng) (num_rooms i : ℕ) :
    (make_room rng num_rooms i).type =
      determine_room_type i num_rooms (rng.roomTypeRoll i) := rfl

theorem num_traps_eq (level : ℕ) :
    (pyInt ((level : ℚ) * (15/10))).toNat = 3 * level / 2 := by
  have h0 : (0:ℚ) ≤ (level : ℚ) * (15/10) := by positivity
  have h1 : ((level : ℚ) * (15/10)) = ((3 * level : ℤ) : ℚ) / ((2:ℕ) : ℚ) := by
    push_cast
    ring
  rw [pyInt_of_nonneg h0, h1, Rat.floor_intCast_div_natCast]
  omega

/-- **C1.** For every `level >= 1`, `generate_dungeon(level)` returns a
dungeon with exactly `min(3 + level // 2, 8)` rooms, exactly one room of
type `'spawn'` (the first, at the origin), exactly one room of type
`'boss'` which is the last room placed, exactly `floor(level * 1.5)` traps,
and exactly `4 * roomCount` walls. -/
theorem C1_generate_dungeon_spec (level : ℕ) (rng : DungeonRng)
    (hlevel : 1 ≤ level) :
    (generate_dungeon level rng).rooms.length = min (3 + level / 2) 8 ∧
    (generate_dungeon level rng).rooms.countP (fun r => r.type == "spawn") = 1 ∧
    (generate_dungeon level rng).rooms.head? =
      some { x := 0, z := 0, width := 15, height := 15, type := "spawn" } ∧
    (generate_dungeon level rng).rooms.countP (fun r => r.type == "boss") = 1 ∧
    (generate_dungeon level rng).rooms.getLast?.map Room.type = some "boss" ∧
    (generate_dungeon level rng).traps.length = 3 * level / 2 ∧
    (generate_dungeon level rng).walls.length =
      4 * (generate_dungeon level rng).rooms.length := by
  have hn3 : 3 ≤ min (3 + level / 2) 8 := by omega
  set n := min (3 + level / 2) 8 with hn
  have hsplit : List.range' 1 (n - 1) = List.range' 1 (n - 2) ++ [n - 1] := by
    have h2 : n - 1 = (n - 2) + 1 := by omega
    rw [h2, List.range'_concat]
    congr 1
    simp
    omega
  have hlen : (generate_dungeon level rng).rooms.length = n := by
    rw [generate_dungeon_rooms]
    simp [List.length_range']
    omega
  refine ⟨hlen, ?_, ?_, ?_, ?_, ?_, ?_⟩
  · rw [generate_dungeon_rooms]
    rw [List.countP_cons, List.countP_map]
    have hz : List.countP ((fun r => r.type == "spawn") ∘ make_room rng n)
        (List.range' 1 (n - 1)) = 0 := by
      rw [List.countP_eq_zero]
      intro i hi
      simp [make_room_type, determine_room_type_ne_spawn]
    rw [hz]
    simp [spawn_room]
  · rw [generate_dungeon_rooms]
    rfl
  · rw [generate_dungeon_rooms]
    rw [List.countP_cons, List.countP_map, hsplit]
    rw [List.countP_append]
    have hz : List.countP ((fun r => r.type == "boss") ∘ make_room rng n)
        (List.range' 1 (n - 2)) = 0 := by
      rw [List.countP_eq_zero]
      intro i hi
      rw [List.mem_range'] at hi
      obtain ⟨k, hk, rfl⟩ := hi
      simp only [Function.comp_apply, make_room_type, beq_iff_eq,
        determine_room_type_eq_boss_iff]
      omega
    have ho : List.countP ((fun r => r.type == "boss") ∘ make_room rng n)
        [n - 1] = 1 := by
      simp [make_room_type, determine_room_type_eq_boss_iff]
    rw [hz, ho]
    simp [spawn_room]
  · rw [generate_dungeon_rooms, hsplit, List.map_append, List.map_cons,
      List.map_nil, ← List.cons_append, List.getLast?_concat]
    simp [make_room_type, determine_room_type_eq_boss_iff]
  · have ht : (generate_dungeon level rng).traps.length =
        (pyInt ((level : ℚ) * (15/10))).toNat := by
      simp [generate_dungeon]
    rw [ht, num_traps_eq]
  · have hw : (generate_dungeon level rng).walls =
        (generate_dungeon level rng).rooms.flatMap generate_room_walls := rfl
    rw [hw, length_flatMap_walls]

/-- A concrete dungeon random stream (all draws 0, trivial trig oracles). -/
def c1Rng : DungeonRng :=
  { pi := 0, cos := fun _ => 0, sin := fun _ => 0,
    roomDist := fun _ => 0, roomTypeRoll := fun _ => 0,
    roomW := fun _ => 0, roomH := fun _ => 0,
    trapRoom := fun _ => 0, trapType := fun _ => 0,
    trapOffX := fun _ => 0, trapOffZ := fun _ => 0,
    spawnCountRoll := fun _ => 0, spawnChoice := fun _ _ => 0,
    spawnOffX := fun _ _ => 0, spawnOffZ := fun _ _ => 0 }

/-- Witness for C1 at level 1 (with an arbitrary concrete random stream):
3 rooms, one spawn room first, one boss room last, 1 trap, 12 walls. -/
theorem C1_generate_dungeon_spec_witness :
    (generate_dungeon 1 c1Rng).rooms.length = min (3 + 1 / 2) 8 ∧
    (generate_dungeon 1 c1Rng).rooms.countP (fun r => r.type == "spawn") = 1 ∧
    (generate_dungeon 1 c1Rng).rooms.head? =
      some { x := 0, z := 0, width := 15, height := 15, type := "spawn" } ∧
    (generate_dungeon 1 c1Rng).rooms.countP (fun r => r.type == "boss") = 1 ∧
    (generate_dungeon 1 c1Rng).rooms.getLast?.map Room.type = some "boss" ∧
    (generate_dungeon 1 c1Rng).traps.length = 3 * 1 / 2 ∧
    (generate_dungeon 1 c1Rng).walls.length =
      4 * (generate_dungeon 1 c1Rng).rooms.length :=
  C1_generate_dungeon_spec 1 c1Rng (by norm_num)

/-- **C5.** The metadata fields `num_rooms`, `num_traps` and
`num_spawn_points` of every generated dungeon equal the actual lengths of
the `rooms`, `traps` and `spawnPoints` collections: they are computed from
the final collection sizes (the equalities hold definitionally for every
level and random stream), never independently tracked. -/
theorem C5_metadata_counts (level : ℕ) (rng : DungeonRng) :
    (generate_dungeon level rng).metadata.num_rooms =
      ((generate_dungeon level rng).rooms.length : ℤ) ∧
    (generate_dungeon level rng).metadata.num_traps =
      ((generate_dungeon level rng).traps.length : ℤ) ∧
    (generate_dungeon level rng).metadata.num_spawn_points =
      ((generate_dungeon level rng).spawnPoints.length : ℤ) :=
  ⟨rfl, rfl, rfl⟩

/-! ## Dungeon validation (`dungeon_integration.py`, `validate_dungeon`) -/

/-- A dungeon dict as seen by the validator: every key may be absent
(`none`).  The `isinstance(dungeon['rooms'], list)` half of the source's
room check is always true in this typed model. -/
structure DungeonDict where
  rooms : Option (List Room)
  corridors : Option (List Corridor)
  traps : Option (List Trap)
  spawnPoints : Option (List SpawnPoint)
  walls : Option (List Wall)
  level : Option ℤ
  metadata : Option DungeonMetadata
  deriving DecidableEq, Repr

/-- `validate_dungeon` of `dungeon_integration.py` (lines 111-147): checks
the required keys in order, then non-emptiness of `rooms`, then the
presence of a spawn room, then the three metadata counts; returns `True`
or raises `ValueError` with the given message. -/
def validate_dungeon (dungeon : DungeonDict) : Except String Bool :=
  match dungeon.rooms with
  | none => .error "Missing required key: rooms"
  | some rooms =>
  match dungeon.corridors with
  | none => .error "Missing required key: corridors"
  | some _ =>
  match dungeon.traps with
  | none => .error "Missing required key: traps"
  | some traps =>
  match dungeon.spawnPoints with
  | none => .error "Missing required key: spawnPoints"
  | some spawnPoints =>
  match dungeon.walls with
  | none => .error "Missing required key: walls"
  | some _ =>
  match dungeon.level with
  | none => .error "Missing required key: level"
  | some _ =>
  match dungeon.metadata with
  | none => .error "Missing required key: metadata"
  | some metadata =>
  if rooms.length = 0 then .error "Dungeon must have at least one room"
  else
    let spawn_rooms := rooms.filter (fun r => r.type == "spawn")
    if spawn_rooms.length = 0 then .error "Dungeon must have a spawn room"
    else
      if metadata.num_rooms ≠ (rooms.length : ℤ) then
        .error "Metadata room count doesn\x27t match actual rooms"
      else if metadata.num_traps ≠ (traps.length : ℤ) then
        .error "Metadata trap count doesn\x27t match actual traps"
      else if metadata.num_spawn_points ≠ (spawnPoints.length : ℤ) then
        .error "Metadata spawn point count doesn\x27t match actual spawn points"
      else .ok true

/-- The conditions under which `validate_dungeon` accepts: all seven keys
present, a non-empty room list, at least one spawn-type room (not exactly
one), and metadata counts matching the collection lengths. -/
def validate_accepts (dungeon : DungeonDict) : Prop :=
  dungeon.rooms ≠ none ∧ dungeon.corridors ≠ none ∧ dungeon.traps ≠ none ∧
  dungeon.spawnPoints ≠ none ∧ dungeon.walls ≠ none ∧ dungeon.level ≠ none ∧
  dungeon.metadata ≠ none ∧
  dungeon.rooms.getD [] ≠ [] ∧
  0 < ((dungeon.rooms.getD []).filter (fun r => r.type == "spawn")).length ∧
  (dungeon.metadata.getD ⟨0, 0, 0⟩).num_rooms =
    ((dungeon.rooms.getD []).length : ℤ) ∧
  (dungeon.metadata.getD ⟨0, 0, 0⟩).num_traps =
    ((dungeon.traps.getD []).length : ℤ) ∧
  (dungeon.metadata.getD ⟨0, 0, 0⟩).num_spawn_points =
    ((dungeon.spawnPoints.getD []).length : ℤ)

/-- A dungeon dict with two spawn-type rooms and consistent metadata. -/
def c9TwoSpawnDict : DungeonDict :=
  { rooms := some [{ x := 0, z := 0, width := 15, height := 15, type := "spawn" },
                   { x := 30, z := 0, width := 10, height := 10, type := "spawn" }],
    corridors := some [], traps := some [], spawnPoints := some [],
    walls := some [], level := some 1, metadata := some ⟨2, 0, 0⟩ }

/-- **C9, counterexample.** `validate_dungeon` accepts a dungeon with two
spawn-type rooms: it only rejects the absence of a spawn room, so
"exactly one spawn room" is not part of the accepted condition. -/
theorem C9_counterexample :
    validate_dungeon c9TwoSpawnDict = .ok true ∧
    ((c9TwoSpawnDict.rooms.getD []).filter
      (fun r => r.type == "spawn")).length = 2 :=
  ⟨rfl, by decide⟩

/-- **C9, amended.** `validate_dungeon` accepts a dungeon if and only if it
contains all of the keys {rooms, corridors, traps, spawnPoints, walls,
level, metadata}, has at least one room, has AT LEAST ONE room of type
'spawn' (two or more spawn rooms are accepted as well), and its metadata
counts match the collection lengths; any dungeon violating one of these
conditions is rejected with a raised error. -/
theorem C9_validate_dungeon_iff (dungeon : DungeonDict) :
    (validate_dungeon dungeon = .ok true ↔ validate_accepts dungeon) ∧
    ((∃ msg, validate_dungeon dungeon = .error msg) ↔
      ¬ validate_accepts dungeon) := by
  have hok : ∀ (d : DungeonDict) (b : Bool),
      validate_dungeon d = .ok b → b = true := by
    intro d b h
    obtain ⟨r, c, t, s, w, l, m⟩ := d
    cases r <;> cases c <;> cases t <;> cases s <;> cases w <;> cases l <;>
      cases m <;> simp only [validate_dungeon] at h <;>
      first
        | exact Except.noConfusion h
        | (split_ifs at h <;>
            first
              | exact Except.noConfusion h
              | exact (Except.ok.inj h).symm)
  have hmain : validate_dungeon dungeon = .ok true ↔
      validate_accepts dungeon := by
    obtain ⟨r, c, t, s, w, l, m⟩ := dungeon
    cases r <;> cases c <;> cases t <;> cases s <;> cases w <;> cases l <;>
      cases m <;> simp only [validate_dungeon, validate_accepts] <;> try simp
    split_ifs with h1 h2 h3 h4 h5 <;>
      simp_all [List.length_eq_zero, Nat.pos_iff_ne_zero]
  have hcases : validate_dungeon dungeon = .ok true ∨
      ∃ msg, validate_dungeon dungeon = .error msg := by
    rcases hres : validate_dungeon dungeon with msg | b
    · exact Or.inr ⟨msg, rfl⟩
    · exact Or.inl (by rw [hok dungeon b hres])
  refine ⟨hmain, ?_, ?_⟩
  · rintro ⟨msg, hmsg⟩ hacc
    rw [← hmain] at hacc
    rw [hacc] at hmsg
    exact Except.noConfusion hmsg
  · intro hacc
    rcases hcases with h | h
    · exact absurd (hmain.mp h) hacc
    · exact h
